import Mathlib

/-!
Verification development for the book recommendation system.

The repository ships a TypeScript frontend (a landing page showing trending
books and a demo page that queries the recommendation API) and documents a
FastAPI backend.  The backend engine itself (similarity index, CF, CBF,
hybrid combiner, trending ranker) is not part of the reviewed files; it is
modelled here from the specification.  The frontend logic is embedded
directly from the source.
-/

namespace RecSys

/-! ## Frontend demo page (src/frontend, demo route)

Shallow embedding of the `fetchRecommendations` handler of the demo route
and of the landing page request.  JavaScript string truthiness is modelled
by comparison with the empty string. -/

/-- The `Book` interface of the demo route: fields rendered by the page. -/
structure Book where
  product_id : Nat
  title : String
  authors : String
  avg_rating : ℚ
  n_review : Nat
  cover_link : String
deriving Repr, DecidableEq

/-- Component state of the demo route: the two input fields and the three
pieces of React state the handler mutates. -/
structure DemoState where
  userId : String
  productId : String
  books : List Book
  loading : Bool
  error : Option String
deriving Repr, DecidableEq

/-- Outcome of the awaited HTTP call made by the handler. -/
inductive HttpOutcome where
  | ok (data : List Book)
  | failed
deriving Repr, DecidableEq

/-- Endpoint chosen when both identifiers are present. -/
def hybridEndpoint (u p : String) : String :=
  "api/hybrid-recommendations?user_id=" ++ u ++ "&product_id=" ++ p

/-- Endpoint chosen when only the user identifier is present. -/
def cfEndpoint (u : String) : String :=
  "api/cf-recommendations?user_id=" ++ u

/-- Endpoint chosen when only the book identifier is present. -/
def cbfEndpoint (p : String) : String :=
  "api/cbf-recommendations?product_id=" ++ p

/-- The conditional endpoint expression of `fetchRecommendations`:
`userId && productId ? hybrid : userId ? cf : cbf`. -/
def selectedEndpoint (u p : String) : String :=
  if u ≠ "" ∧ p ≠ "" then hybridEndpoint u p
  else if u ≠ "" then cfEndpoint u
  else cbfEndpoint p

/-- The request actually issued by `fetchRecommendations`: the guard
`if (!userId && !productId)` returns early with a validation error and no
HTTP request; otherwise the selected endpoint is fetched. -/
def requestTarget (u p : String) : Option String :=
  if u = "" ∧ p = "" then none else some (selectedEndpoint u p)

/-- The landing page (index route) fetches the trending list
unconditionally on mount, with no user or item identifier. -/
def indexPageRequest : String := "/api/trending-books"

/-- First two statements of the handler: `setLoading(true); setError(null)`. -/
def fetchBegin (s : DemoState) : DemoState :=
  { s with loading := true, error := none }

/-- Body of the handler after the opening statements: the validation guard,
then the awaited request with its success and failure continuations. -/
def fetchBody (s : DemoState) (response : HttpOutcome) : DemoState :=
  if s.userId = "" ∧ s.productId = "" then
    { s with error := some "Please provide at least a User ID or Book ID." }
  else
    match response with
    | .ok data => { s with books := data }
    | .failed => { s with error := some "Failed to fetch recommendations." }

/-- The `finally` block: `setLoading(false)`. -/
def fetchFinally (s : DemoState) : DemoState :=
  { s with loading := false }

/-- The complete `fetchRecommendations` handler as a state transformer,
parametrised by the outcome of the HTTP call it would await. -/
def fetchRecommendations (s : DemoState) (response : HttpOutcome) : DemoState :=
  fetchFinally (fetchBody (fetchBegin s) response)

/-! ## Backend engine

The recommendation engine itself is not among the reviewed files; every
definition in this section is modelled from the specification, faithful to
its wording. -/

/-- Modelled from the spec: user identifiers (missing backend data model). -/
abbrev UserId := Nat

/-- Modelled from the spec: item identifiers (missing backend data model). -/
abbrev ItemId := Nat

/-- Modelled from the spec: an Item carries item_id, title, authors,
average_rating, review_count, a content feature vector and a cover
reference (missing backend data model, spec section 3). -/
structure Item where
  item_id : ItemId
  title : String
  authors : String
  average_rating : ℚ
  review_count : Nat
  features : List ℚ
  cover_reference : String
deriving Repr, DecidableEq

/-- Modelled from the spec: a Rating is (user_id, item_id, score,
timestamp), unique per (user_id, item_id) (missing backend data model). -/
structure Rating where
  user_id : UserId
  item_id : ItemId
  score : ℚ
  timestamp : ℚ
deriving Repr, DecidableEq

/-- Modelled from the spec: an immutable computation snapshot holding the
user population, the catalog, the sparse rating matrix and the snapshot
time used for recency weighting (missing backend data model). -/
structure Snapshot where
  users : List UserId
  catalog : List Item
  ratings : List Rating
  now : ℚ
deriving Repr, DecidableEq

/-- Sparse lookup into the rating matrix: the score of the first stored
rating of item i by user u, if any. -/
def Snapshot.rating (s : Snapshot) (u : UserId) (i : ItemId) : Option ℚ :=
  (s.ratings.find? (fun r => r.user_id == u && r.item_id == i)).map (fun r => r.score)

/-- Rating with default 0 for missing entries (used only on entries known
to be present). -/
def ratingD (s : Snapshot) (u : UserId) (i : ItemId) : ℚ :=
  (s.rating u i).getD 0

/-- The item identifiers of the catalog, in catalog order. -/
def Snapshot.itemIds (s : Snapshot) : List ItemId :=
  s.catalog.map (fun it => it.item_id)

/-- Catalog lookup by item identifier. -/
def lookupItem (s : Snapshot) (i : ItemId) : Option Item :=
  s.catalog.find? (fun it => it.item_id == i)

/-- Items rated by user u, in catalog order. -/
def ratedItems (s : Snapshot) (u : UserId) : List ItemId :=
  (s.itemIds).filter (fun i => (s.rating u i).isSome)

/-- Modelled from the spec: the pairwise rating overlap of two users, the
intersection of their non-missing dimensions (spec section 4.1). -/
def sharedItems (s : Snapshot) (u v : UserId) : List ItemId :=
  (ratedItems s u).filter (fun i => (s.rating v i).isSome)

/-- Dot product of two user rating vectors over their shared items. -/
def dotShared (s : Snapshot) (u v : UserId) : ℚ :=
  ((sharedItems s u v).map (fun i => ratingD s u i * ratingD s v i)).sum

/-- Squared norm of user w over the shared items of u and v. -/
def normSqShared (s : Snapshot) (u v : UserId) (w : UserId) : ℚ :=
  ((sharedItems s u v).map (fun i => ratingD s w i ^ 2)).sum

/-- Modelled from the spec: the minimum overlap threshold of the
Similarity Index, two shared rated items (spec section 4.1). -/
def minOverlap : Nat := 2

/-- Modelled from the spec: user to user cosine similarity of the
Similarity Index.  Pairs with fewer than the minimum overlap of shared
rated items are assigned similarity 0; similarity is 0 when either vector
has zero norm; otherwise it is the cosine over the shared dimensions
(spec section 4.1). -/
noncomputable def userSim (s : Snapshot) (u v : UserId) : ℝ :=
  if (sharedItems s u v).length < minOverlap then 0
  else if normSqShared s u v u = 0 ∨ normSqShared s u v v = 0 then 0
  else (dotShared s u v : ℝ) /
    (Real.sqrt (normSqShared s u v u) * Real.sqrt (normSqShared s u v v))

/-- Dot product of two item feature vectors. -/
def dotF (a b : List ℚ) : ℚ :=
  (List.zipWith (fun x y => x * y) a b).sum

/-- Modelled from the spec: item to item cosine similarity of the
Similarity Index over content feature vectors, 0 when either vector has
zero norm (spec section 4.1). -/
noncomputable def itemSim (a b : Item) : ℝ :=
  if dotF a.features a.features = 0 ∨ dotF b.features b.features = 0 then 0
  else (dotF a.features b.features : ℝ) /
    (Real.sqrt (dotF a.features a.features) * Real.sqrt (dotF b.features b.features))

/-- Modelled from the spec: a result item carries item_id, title, authors,
average_rating, review_count, cover_reference and score; trending results
additionally carry the raw trending_score (spec section 6). -/
structure ResultItem where
  item_id : ItemId
  title : String
  authors : String
  average_rating : ℚ
  review_count : Nat
  cover_reference : String
  score : ℝ
  trending_score : Option ℝ := none

/-- Modelled from the spec: a RecommendationResult is an ordered sequence
of scored items with the fallback and degraded flags of the error handling
design (spec sections 3, 7; degraded models the partial flag). -/
structure RecommendationResult where
  items : List ResultItem
  fallback : Bool := false
  degraded : Bool := false

/-- Modelled from the spec: the error taxonomy (spec section 7). -/
inductive RecError where
  | notFound
  | emptyCorpus
deriving Repr, DecidableEq

/-- The items of a fallible result, empty on error. -/
def resultItems : Except RecError RecommendationResult → List ResultItem
  | .error _ => []
  | .ok r => r.items

/-- Build a result item from a catalog item and a score. -/
def ofItem (it : Item) (sc : ℝ) : ResultItem :=
  { item_id := it.item_id, title := it.title, authors := it.authors,
    average_rating := it.average_rating, review_count := it.review_count,
    cover_reference := it.cover_reference, score := sc, trending_score := none }

/-- Modelled from the spec: the deterministic ranking order shared by all
engines, descending score, then a descending rational tiebreak field, then
ascending item identifier (spec section 4). -/
def rankLE (tie : ResultItem → ℚ) (a b : ResultItem) : Prop :=
  b.score < a.score ∨ (a.score = b.score ∧
    (tie b < tie a ∨ (tie a = tie b ∧ a.item_id ≤ b.item_id)))

/-- Tiebreak by review count (CF Engine and Trending Ranker). -/
def rcTie (r : ResultItem) : ℚ := (r.review_count : ℚ)

/-- Tiebreak by average rating (CBF Engine and Hybrid Combiner). -/
def avgTie (r : ResultItem) : ℚ := r.average_rating

/-- Sort a list by a binary relation, decidability supplied classically. -/
noncomputable def sortByRel {α : Type} (r : α → α → Prop) (l : List α) : List α :=
  @List.insertionSort α r (Classical.decRel r) l

/-- Ordered insertion step of sortByRel. -/
noncomputable def insertByRel {α : Type} (r : α → α → Prop) (a : α) (l : List α) :
    List α :=
  @List.orderedInsert α r (Classical.decRel r) a l

/-- Rank a list of result items: sort by the deterministic order, then cap
at k. -/
noncomputable def rankList (tie : ResultItem → ℚ) (k : Nat) (l : List ResultItem) :
    List ResultItem :=
  (sortByRel (rankLE tie) l).take k

/-- A scored candidate list: each identifier paired with its score. -/
def scoredOf (f : ItemId → ℝ) (ids : List ItemId) : List (ItemId × ℝ) :=
  ids.map (fun i => (i, f i))

/-- Materialise scored identifiers into result items via catalog lookup. -/
def mkResults (s : Snapshot) (l : List (ItemId × ℝ)) : List ResultItem :=
  l.filterMap (fun p => (lookupItem s p.1).map (fun it => ofItem it p.2))

/-- Modelled from the spec: configured neighbor count of the CF Engine. -/
def topN : Nat := 20

/-- Modelled from the spec: configured trending half-life, 30 days. -/
def halfLife : ℚ := 30

/-- Order on neighbor candidates: higher similarity to u first, then lower
user identifier. -/
noncomputable def neighborOrder (s : Snapshot) (u : UserId) (v w : UserId) : Prop :=
  userSim s u w < userSim s u v ∨ (userSim s u v = userSim s u w ∧ v ≤ w)

/-- Modelled from the spec: the top-N similar users of the CF Engine,
excluding u itself, restricted to strictly positive similarity
(spec section 4.2). -/
noncomputable def neighbors (s : Snapshot) (u : UserId) : List UserId :=
  (sortByRel (neighborOrder s u)
    (s.users.filter (fun v => v != u && decide (0 < userSim s u v)))).take topN

/-- Neighbors of u that rated item i. -/
noncomputable def contributors (s : Snapshot) (u : UserId) (i : ItemId) : List UserId :=
  (neighbors s u).filter (fun n => (s.rating n i).isSome)

/-- Modelled from the spec: CF predicted score, the similarity weighted
average of neighbor ratings over the neighbors who rated the item
(spec section 4.2). -/
noncomputable def cfPredicted (s : Snapshot) (u : UserId) (i : ItemId) : ℝ :=
  ((contributors s u i).map (fun n => userSim s u n * (ratingD s n i : ℝ))).sum /
  ((contributors s u i).map (fun n => |userSim s u n|)).sum

/-- Modelled from the spec: CF candidate items, not yet rated by u and
rated by at least one neighbor (spec section 4.2). -/
noncomputable def cfCandidates (s : Snapshot) (u : UserId) : List ItemId :=
  s.itemIds.filter (fun i => !(s.rating u i).isSome && !(contributors s u i).isEmpty)

/-- The CF Engine's full candidate scoring for u. -/
noncomputable def cfScored (s : Snapshot) (u : UserId) : List (ItemId × ℝ) :=
  scoredOf (cfPredicted s u) (cfCandidates s u)

/-- Modelled from the spec: the CF cold start condition, an unknown user
or a user with zero neighbors above the similarity threshold
(spec section 4.2). -/
noncomputable def cfCold (s : Snapshot) (u : UserId) : Bool :=
  decide (u ∉ s.users) || decide (neighbors s u = [])

/-- Ratings of item i in the snapshot. -/
def itemRatings (s : Snapshot) (i : ItemId) : List Rating :=
  s.ratings.filter (fun r => r.item_id == i)

/-- Timestamp of the most recent rating of item i, if any. -/
def lastRated (s : Snapshot) (i : ItemId) : Option ℚ :=
  ((itemRatings s i).map (fun r => r.timestamp)).max?

/-- Modelled from the spec: the recency weight of the Trending Ranker,
exponential decay with configurable half-life in the time since the most
recent rating; an item never rated gets weight 0 (spec section 4.5, the
never rated case is a documented modelling choice). -/
noncomputable def recencyWeight (s : Snapshot) (i : ItemId) : ℝ :=
  match lastRated s i with
  | none => 0
  | some t => (2 : ℝ) ^ (-(((s.now - t) / halfLife : ℚ) : ℝ))

/-- Modelled from the spec: trending_score = average_rating *
log(1 + review_count) * recency_weight (spec section 4.5). -/
noncomputable def trendingScore (s : Snapshot) (it : Item) : ℝ :=
  (it.average_rating : ℝ) * Real.log (1 + (it.review_count : ℝ)) * recencyWeight s it.item_id

/-- Modelled from the spec: the Trending Ranker, ranking the whole catalog
by trending score with ties broken by review count then item identifier
(spec section 4.5). -/
noncomputable def trending (s : Snapshot) (k : Nat) : RecommendationResult :=
  { items := rankList rcTie k
      (s.catalog.map (fun it =>
        { ofItem it (trendingScore s it) with trending_score := some (trendingScore s it) })) }

/-- Modelled from the spec: the CF Engine.  A cold start user receives the
Trending Ranker output tagged as a fallback, never an error; otherwise the
candidates are ranked by predicted score with ties broken by review count
then item identifier and capped at k (spec section 4.2). -/
noncomputable def cf_recommend (s : Snapshot) (u : UserId) (k : Nat) :
    RecommendationResult :=
  if cfCold s u then { items := (trending s k).items, fallback := true }
  else { items := rankList rcTie k (mkResults s (cfScored s u)) }

/-- The other catalog items offered as CBF candidates for a query item. -/
def cbfIds (s : Snapshot) (q : ItemId) : List ItemId :=
  (s.catalog.filter (fun it => it.item_id != q)).map (fun it => it.item_id)

/-- Content similarity of catalog item i to the query item. -/
noncomputable def cbfSimTo (s : Snapshot) (qit : Item) (i : ItemId) : ℝ :=
  match lookupItem s i with
  | none => 0
  | some it => itemSim qit it

/-- The CBF Engine's full candidate scoring for a query item. -/
noncomputable def cbfScored (s : Snapshot) (qit : Item) : List (ItemId × ℝ) :=
  scoredOf (cbfSimTo s qit) (cbfIds s qit.item_id)

/-- Modelled from the spec: the CBF Engine.  An unknown item signals
NotFound; otherwise every other catalog item is scored by content
similarity to the query item, the query item itself excluded, ranked with
ties broken by average rating then item identifier and capped at k
(spec sections 4.3, 7). -/
noncomputable def cbf_recommend (s : Snapshot) (q : ItemId) (k : Nat) :
    Except RecError RecommendationResult :=
  match lookupItem s q with
  | none => .error .notFound
  | some qit => .ok { items := rankList avgTie k (mkResults s (cbfScored s qit)) }

/-- Smallest score of a scored list, 0 when empty. -/
noncomputable def loScore (l : List (ItemId × ℝ)) : ℝ :=
  match l.map (fun p => p.2) with
  | [] => 0
  | a :: t => t.foldl min a

/-- Largest score of a scored list, 0 when empty. -/
noncomputable def hiScore (l : List (ItemId × ℝ)) : ℝ :=
  match l.map (fun p => p.2) with
  | [] => 0
  | a :: t => t.foldl max a

/-- Score of identifier i in a scored list, if present. -/
def lookupScore (i : ItemId) (l : List (ItemId × ℝ)) : Option ℝ :=
  (l.find? (fun p => p.1 == i)).map (fun p => p.2)

/-- Modelled from the spec: min-max normalization of a score list to
[0,1]; an empty or constant list contributes 0 for all items, and an item
missing from the list receives 0 (spec section 4.4). -/
noncomputable def minmaxNorm (l : List (ItemId × ℝ)) (i : ItemId) : ℝ :=
  if hiScore l = loScore l then 0
  else match lookupScore i l with
    | none => 0
    | some v => (v - loScore l) / (hiScore l - loScore l)

/-- Modelled from the spec: the combined hybrid score,
alpha * normalized_CF + (1 - alpha) * normalized_CBF (spec section 4.4). -/
noncomputable def hybridCombined (cfL cbfL : List (ItemId × ℝ)) (α : ℝ) (i : ItemId) : ℝ :=
  α * minmaxNorm cfL i + (1 - α) * minmaxNorm cbfL i

/-- Union of two candidate identifier lists, first list order first. -/
def unionIds (xs ys : List ItemId) : List ItemId :=
  xs ++ ys.filter (fun i => !xs.contains i)

/-- The CF side of the Hybrid Combiner: empty for a cold start user,
otherwise the CF Engine's full candidate scoring. -/
noncomputable def hybridCfL (s : Snapshot) (u : UserId) : List (ItemId × ℝ) :=
  if cfCold s u then [] else cfScored s u

/-- The CBF side of the Hybrid Combiner: empty for an unknown item,
otherwise the CBF Engine's full candidate scoring. -/
noncomputable def hybridCbfL (s : Snapshot) (q : ItemId) : List (ItemId × ℝ) :=
  match lookupItem s q with
  | none => []
  | some qit => cbfScored s qit

/-- The effective weight of the Hybrid Combiner: 0 under the CF cold
start (CBF alone), 1 under an unknown item (CF alone), the requested
alpha otherwise. -/
noncomputable def hybridAEff (s : Snapshot) (u : UserId) (q : ItemId) (α : ℝ) : ℝ :=
  if cfCold s u then 0 else if lookupItem s q = none then 1 else α

/-- The candidate union of the Hybrid Combiner. -/
noncomputable def hybridUnion (s : Snapshot) (u : UserId) (q : ItemId) : List ItemId :=
  unionIds ((hybridCfL s u).map (fun p => p.1)) ((hybridCbfL s q).map (fun p => p.1))

/-- The combined scoring of the Hybrid Combiner over the candidate
union. -/
noncomputable def hybridScoredList (s : Snapshot) (u : UserId) (q : ItemId) (α : ℝ) :
    List (ItemId × ℝ) :=
  scoredOf (hybridCombined (hybridCfL s u) (hybridCbfL s q) (hybridAEff s u q α))
    (hybridUnion s u q)

/-- Content similarity of catalog item i to the query identifier q, 0
when q is unknown. -/
noncomputable def cbfQuerySim (s : Snapshot) (q i : ItemId) : ℝ :=
  match lookupItem s q with
  | none => 0
  | some qit => cbfSimTo s qit i

/-- Modelled from the spec: the Hybrid Combiner.  Unknown item with
unknown user signals NotFound; a cold start user contributes an empty CF
list and forces the CBF side (alpha effectively 0, degraded); an unknown
item contributes an empty CBF list and forces the CF side (alpha
effectively 1, degraded); otherwise the candidate union is ranked by the
combined score with ties broken by average rating then item identifier and
capped at k (spec section 4.4). -/
noncomputable def hybrid_recommend (s : Snapshot) (u : UserId) (q : ItemId) (k : Nat)
    (α : ℝ) : Except RecError RecommendationResult :=
  if lookupItem s q = none ∧ u ∉ s.users then .error .notFound
  else
    .ok { items := rankList avgTie k (mkResults s (hybridScoredList s u q α)),
          degraded := cfCold s u || (lookupItem s q).isNone }

/-- A well formed result list for cap k and tiebreak tie: sorted by the
deterministic ranking order, scores non-increasing, length at most k. -/
def sortedCapped (tie : ResultItem → ℚ) (k : Nat) (l : List ResultItem) : Prop :=
  l.Sorted (rankLE tie) ∧ l.Pairwise (fun a b => b.score ≤ a.score) ∧ l.length ≤ k

/-- The result item is populated from a catalog item of the snapshot, all
descriptive fields matching. -/
def fieldsFrom (s : Snapshot) (r : ResultItem) : Prop :=
  ∃ it, it ∈ s.catalog ∧ r.item_id = it.item_id ∧ r.title = it.title ∧
    r.authors = it.authors ∧ r.average_rating = it.average_rating ∧
    r.review_count = it.review_count ∧ r.cover_reference = it.cover_reference

/-- As fieldsFrom, and the item additionally carries its raw trending
score. -/
def trendingFieldsFrom (s : Snapshot) (r : ResultItem) : Prop :=
  ∃ it, it ∈ s.catalog ∧ r.item_id = it.item_id ∧ r.title = it.title ∧
    r.authors = it.authors ∧ r.average_rating = it.average_rating ∧
    r.review_count = it.review_count ∧ r.cover_reference = it.cover_reference ∧
    r.trending_score = some (trendingScore s it)

/-- The cold start example of the spec: ratings (u1,i1):5, (u1,i2):3,
(u2,i1):4, (u2,i3):5. -/
def coldSnap : Snapshot :=
  { users := [1, 2],
    catalog := [⟨1, "i1", "a", 3, 1, [1], "c"⟩, ⟨2, "i2", "a", 3, 1, [1], "c"⟩,
                ⟨3, "i3", "a", 3, 1, [1], "c"⟩],
    ratings := [⟨1, 1, 5, 0⟩, ⟨1, 2, 3, 0⟩, ⟨2, 1, 4, 0⟩, ⟨2, 3, 5, 0⟩],
    now := 0 }

/-- A snapshot whose single user rated exactly one item: the rating vector
has nonzero norm but the self overlap is below the minimum threshold. -/
def oneRatingSnap : Snapshot :=
  { users := [1], catalog := [⟨1, "t", "a", 4, 1, [1], "c"⟩],
    ratings := [⟨1, 1, 5, 0⟩], now := 0 }

/-- A snapshot whose single user rated two items. -/
def twoRatingSnap : Snapshot :=
  { users := [1],
    catalog := [⟨1, "t", "a", 4, 1, [1], "c"⟩, ⟨2, "u", "a", 4, 1, [1], "c"⟩],
    ratings := [⟨1, 1, 3, 0⟩, ⟨1, 2, 4, 0⟩], now := 0 }

/-- Snapshot for the hybrid weight experiments: user 1 shares two ratings
with neighbor 2 (cosine similarity 1); the neighbor rates items 1 and 2
equally and item 3 lower; items 1 and 2 order differently under the CF
tiebreak (review count) and the hybrid tiebreak (average rating). -/
def hybridSnap : Snapshot :=
  { users := [1, 2],
    catalog := [⟨1, "b1", "a", 1, 10, [1], "c1"⟩, ⟨2, "b2", "a", 5, 5, [1], "c2"⟩,
                ⟨3, "b3", "a", 1, 1, [1], "c3"⟩, ⟨4, "b4", "a", 2, 1, [1], "c4"⟩,
                ⟨5, "b5", "a", 0, 1, [0], "c5"⟩],
    ratings := [⟨1, 4, 5, 0⟩, ⟨1, 5, 5, 0⟩, ⟨2, 4, 5, 0⟩, ⟨2, 5, 5, 0⟩,
                ⟨2, 1, 4, 0⟩, ⟨2, 2, 4, 0⟩, ⟨2, 3, 2, 0⟩],
    now := 0 }

/-! ## Theorems about the frontend demo page -/

/-- C1 counterexample.  The claim says a query carrying neither a user
identifier nor an item identifier is routed to Trending.  In the demo
handler, with both inputs empty no request is issued at all: the guard
reports a validation error instead of contacting any endpoint. -/
theorem requestTarget_neither_is_none : requestTarget "" "" = none := by
  simp [requestTarget]

/-- C1 (amended).  Routing of `fetchRecommendations`: both identifiers
present routes to the hybrid endpoint, user-only to CF, item-only to CBF;
with neither present no request is issued (a validation error is shown);
the Trending endpoint is only fetched by the landing page, unconditionally. -/
theorem fetchRecommendations_routing (u p : String) :
    (u ≠ "" → p ≠ "" → requestTarget u p = some (hybridEndpoint u p)) ∧
    (u ≠ "" → p = "" → requestTarget u p = some (cfEndpoint u)) ∧
    (u = "" → p ≠ "" → requestTarget u p = some (cbfEndpoint p)) ∧
    (u = "" → p = "" → requestTarget u p = none) := by
  refine ⟨fun h1 h2 => ?_, fun h1 h2 => ?_, fun h1 h2 => ?_, fun h1 h2 => ?_⟩ <;>
    simp [requestTarget, selectedEndpoint, h1, h2]

/-- C1 witness: routing evaluated at a concrete user-only query. -/
theorem fetchRecommendations_routing_witness :
    requestTarget "alice" "" = some (cfEndpoint "alice") :=
  (fetchRecommendations_routing "alice" "").2.1 (by decide) rfl

/-- C9.  When at least one identifier is supplied (so a request is issued)
and the HTTP call rejects, the handler sets the error message to
`Failed to fetch recommendations.` and leaves the books state unchanged,
preserving the previously displayed list. -/
theorem fetchRecommendations_failure (s : DemoState)
    (h : ¬(s.userId = "" ∧ s.productId = "")) :
    (fetchRecommendations s .failed).books = s.books ∧
    (fetchRecommendations s .failed).error =
      some "Failed to fetch recommendations." := by
  simp [fetchRecommendations, fetchFinally, fetchBody, fetchBegin, h]

/-- C9 witness: the failure path evaluated on a concrete state holding a
previously fetched book. -/
theorem fetchRecommendations_failure_witness :
    (fetchRecommendations
        ⟨"u1", "", [⟨7, "t", "a", 4, 3, "c"⟩], false, none⟩ .failed).books =
      [⟨7, "t", "a", 4, 3, "c"⟩] ∧
    (fetchRecommendations
        ⟨"u1", "", [⟨7, "t", "a", 4, 3, "c"⟩], false, none⟩ .failed).error =
      some "Failed to fetch recommendations." :=
  fetchRecommendations_failure ⟨"u1", "", [⟨7, "t", "a", 4, 3, "c"⟩], false, none⟩
    (by decide)

/-- C10.  Every invocation of the handler sets loading to true at the
start, keeps it true through the body (validation failure, success or
request failure alike), and the `finally` block restores it to false when
the invocation completes. -/
theorem fetchRecommendations_loading (s : DemoState) (r : HttpOutcome) :
    (fetchBegin s).loading = true ∧
    (fetchBody (fetchBegin s) r).loading = true ∧
    (fetchRecommendations s r).loading = false := by
  refine ⟨rfl, ?_, rfl⟩
  cases r <;> simp [fetchBody, fetchBegin] <;> split <;> rfl

/-! ## Ranking infrastructure lemmas -/

instance rankLETotal (tie : ResultItem → ℚ) : IsTotal ResultItem (rankLE tie) := ⟨by
  intro a b
  rcases lt_trichotomy a.score b.score with h | h | h
  · exact Or.inr (Or.inl h)
  · rcases lt_trichotomy (tie a) (tie b) with ht | ht | ht
    · exact Or.inr (Or.inr ⟨h.symm, Or.inl ht⟩)
    · rcases Nat.le_total a.item_id b.item_id with hi | hi
      · exact Or.inl (Or.inr ⟨h, Or.inr ⟨ht, hi⟩⟩)
      · exact Or.inr (Or.inr ⟨h.symm, Or.inr ⟨ht.symm, hi⟩⟩)
    · exact Or.inl (Or.inr ⟨h, Or.inl ht⟩)
  · exact Or.inl (Or.inl h)⟩

instance rankLETrans (tie : ResultItem → ℚ) : IsTrans ResultItem (rankLE tie) := ⟨by
  intro a b c hab hbc
  rcases hab with h1 | ⟨e1, t1⟩
  · rcases hbc with h2 | ⟨e2, t2⟩
    · exact Or.inl (by linarith)
    · exact Or.inl (by linarith)
  · rcases hbc with h2 | ⟨e2, t2⟩
    · exact Or.inl (by linarith)
    · refine Or.inr ⟨e1.trans e2, ?_⟩
      rcases t1 with u1 | ⟨f1, i1⟩
      · rcases t2 with u2 | ⟨f2, i2⟩
        · exact Or.inl (by linarith)
        · exact Or.inl (by linarith)
      · rcases t2 with u2 | ⟨f2, i2⟩
        · exact Or.inl (by linarith)
        · exact Or.inr ⟨f1.trans f2, le_trans i1 i2⟩⟩

theorem sortByRel_perm {α : Type} (r : α → α → Prop) (l : List α) :
    (sortByRel r l).Perm l :=
  @List.perm_insertionSort α r (Classical.decRel r) l

theorem sortByRel_sorted {α : Type} (r : α → α → Prop) [IsTotal α r] [IsTrans α r]
    (l : List α) : List.Sorted r (sortByRel r l) :=
  @List.sorted_insertionSort α r (Classical.decRel r) _ _ l

theorem mem_of_mem_rankList {tie : ResultItem → ℚ} {k : Nat} {l : List ResultItem}
    {a : ResultItem} (h : a ∈ rankList tie k l) : a ∈ l :=
  (sortByRel_perm (rankLE tie) l).mem_iff.1 (List.take_subset _ _ h)

theorem sortedCapped_rankList (tie : ResultItem → ℚ) (k : Nat) (l : List ResultItem) :
    sortedCapped tie k (rankList tie k l) := by
  have hs : List.Sorted (rankLE tie) (rankList tie k l) :=
    (sortByRel_sorted (rankLE tie) l).sublist (List.take_sublist _ _)
  refine ⟨hs, hs.imp ?_, ?_⟩
  · intro a b h
    rcases h with h | ⟨e, _⟩
    · exact h.le
    · exact e.symm.le
  · simp only [rankList, List.length_take]
    omega

theorem sortedCapped_nil (tie : ResultItem → ℚ) (k : Nat) : sortedCapped tie k [] :=
  ⟨List.Pairwise.nil, List.Pairwise.nil, by simp⟩

theorem lookupItem_mem {s : Snapshot} {i : ItemId} {it : Item}
    (h : lookupItem s i = some it) : it ∈ s.catalog :=
  List.mem_of_find?_eq_some h

theorem lookupItem_id {s : Snapshot} {i : ItemId} {it : Item}
    (h : lookupItem s i = some it) : it.item_id = i := by
  have := List.find?_some h
  simpa using this

theorem mem_mkResults {s : Snapshot} {l : List (ItemId × ℝ)} {r : ResultItem}
    (h : r ∈ mkResults s l) :
    ∃ p ∈ l, ∃ it, lookupItem s p.1 = some it ∧ r = ofItem it p.2 := by
  simp only [mkResults, List.mem_filterMap, Option.map_eq_some'] at h
  obtain ⟨p, hp, it, hit, hr⟩ := h
  exact ⟨p, hp, it, hit, hr.symm⟩

theorem mem_mkResults_scoredOf {s : Snapshot} {f : ItemId → ℝ} {ids : List ItemId}
    {r : ResultItem} (h : r ∈ mkResults s (scoredOf f ids)) :
    r.item_id ∈ ids ∧ r.score = f r.item_id ∧ fieldsFrom s r := by
  obtain ⟨p, hp, it, hlk, rfl⟩ := mem_mkResults h
  simp only [scoredOf, List.mem_map] at hp
  obtain ⟨i, hi, rfl⟩ := hp
  have hid : it.item_id = i := lookupItem_id hlk
  refine ⟨?_, ?_, it, lookupItem_mem hlk, rfl, rfl, rfl, rfl, rfl, rfl⟩
  · simpa [ofItem, hid] using hi
  · simp [ofItem, hid]

theorem trending_mem_fields {s : Snapshot} {k : Nat} {r : ResultItem}
    (h : r ∈ (trending s k).items) : trendingFieldsFrom s r := by
  simp only [trending] at h
  have h2 := mem_of_mem_rankList h
  simp only [List.mem_map] at h2
  obtain ⟨it, hit, rfl⟩ := h2
  exact ⟨it, hit, rfl, rfl, rfl, rfl, rfl, rfl, rfl⟩

theorem fieldsFrom_of_trendingFields {s : Snapshot} {r : ResultItem}
    (h : trendingFieldsFrom s r) : fieldsFrom s r := by
  obtain ⟨it, h1, h2, h3, h4, h5, h6, h7, _⟩ := h
  exact ⟨it, h1, h2, h3, h4, h5, h6, h7⟩

/-! ## Theorems about the engine results -/

/-- C2.  Every RecommendationResult returned by the four public
operations is an ordered sequence of scored items of length at most k:
sorted by the deterministic ranking order of its engine (so equal scores
appear in a deterministic tie order, review count then item identifier
for CF and Trending, average rating then item identifier for CBF and
Hybrid), with scores non-increasing across the sequence. -/
theorem results_sorted_capped (s : Snapshot) (u : UserId) (q : ItemId) (k : Nat)
    (α : ℝ) :
    sortedCapped rcTie k (cf_recommend s u k).items ∧
    sortedCapped avgTie k (resultItems (cbf_recommend s q k)) ∧
    sortedCapped avgTie k (resultItems (hybrid_recommend s u q k α)) ∧
    sortedCapped rcTie k (trending s k).items := by
  refine ⟨?_, ?_, ?_, ?_⟩
  · unfold cf_recommend
    split
    · simp only [trending]
      exact sortedCapped_rankList _ _ _
    · exact sortedCapped_rankList _ _ _
  · rcases hq : lookupItem s q with _ | qit <;>
      simp only [cbf_recommend, hq, resultItems]
    · exact sortedCapped_nil _ _
    · exact sortedCapped_rankList _ _ _
  · unfold hybrid_recommend
    split
    · exact sortedCapped_nil _ _
    · simp only [resultItems]
      exact sortedCapped_rankList _ _ _
  · simp only [trending]
    exact sortedCapped_rankList _ _ _

/-- C3.  Every item in every result of the four public operations is
populated from a catalog item with matching item_id, title, authors,
average_rating, review_count and cover_reference, together with its score;
items of a trending result additionally carry the raw trending score. -/
theorem results_carry_fields (s : Snapshot) (u : UserId) (q : ItemId) (k : Nat)
    (α : ℝ) :
    ((cf_recommend s u k).items.Forall (fieldsFrom s)) ∧
    ((resultItems (cbf_recommend s q k)).Forall (fieldsFrom s)) ∧
    ((resultItems (hybrid_recommend s u q k α)).Forall (fieldsFrom s)) ∧
    ((trending s k).items.Forall (trendingFieldsFrom s)) := by
  refine ⟨?_, ?_, ?_, ?_⟩
  · rw [List.forall_iff_forall_mem]
    intro r hr
    unfold cf_recommend at hr
    split at hr
    · exact fieldsFrom_of_trendingFields (trending_mem_fields hr)
    · exact (mem_mkResults_scoredOf (mem_of_mem_rankList hr)).2.2
  · rw [List.forall_iff_forall_mem]
    intro r hr
    rcases hq : lookupItem s q with _ | qit <;>
      simp only [cbf_recommend, hq, resultItems] at hr
    · cases hr
    · exact (mem_mkResults_scoredOf (mem_of_mem_rankList hr)).2.2
  · rw [List.forall_iff_forall_mem]
    intro r hr
    unfold hybrid_recommend at hr
    split at hr
    · cases hr
    · simp only [resultItems] at hr
      exact (mem_mkResults_scoredOf (mem_of_mem_rankList hr)).2.2
  · rw [List.forall_iff_forall_mem]
    intro r hr
    exact trending_mem_fields hr

/-- C8.  CF and CBF are deterministic: the result is a pure function of
the query, the snapshot and the configuration, so two calls with
identical inputs against the same snapshot return identical results. -/
theorem cf_cbf_deterministic (s1 s2 : Snapshot) (u1 u2 : UserId) (q1 q2 : ItemId)
    (k1 k2 : Nat) (hs : s1 = s2) (hu : u1 = u2) (hq : q1 = q2) (hk : k1 = k2) :
    cf_recommend s1 u1 k1 = cf_recommend s2 u2 k2 ∧
    cbf_recommend s1 q1 k1 = cbf_recommend s2 q2 k2 := by
  subst hs; subst hu; subst hq; subst hk
  exact ⟨rfl, rfl⟩

/-- C8 witness: two identical CF and CBF calls on a concrete snapshot. -/
theorem cf_cbf_deterministic_witness :
    cf_recommend coldSnap 1 10 = cf_recommend coldSnap 1 10 ∧
    cbf_recommend coldSnap 1 10 = cbf_recommend coldSnap 1 10 :=
  cf_cbf_deterministic coldSnap coldSnap 1 1 1 1 10 10 rfl rfl rfl rfl

/-- C7.  A CBF result never contains the query item itself, and an
unknown item id makes cbf_recommend signal a NotFound error (rather than
any fallback ranking). -/
theorem cbf_excludes_query_unknown_notFound (s : Snapshot) (q : ItemId) (k : Nat) :
    ((resultItems (cbf_recommend s q k)).Forall (fun r => r.item_id ≠ q)) ∧
    (lookupItem s q = none → cbf_recommend s q k = .error .notFound) := by
  constructor
  · rw [List.forall_iff_forall_mem]
    intro r hr
    rcases hq : lookupItem s q with _ | qit <;>
      simp only [cbf_recommend, hq, resultItems] at hr
    · cases hr
    · have h2 := (mem_mkResults_scoredOf (mem_of_mem_rankList hr)).1
      have hqid : qit.item_id = q := lookupItem_id hq
      simp only [cbfIds, List.mem_map, List.mem_filter] at h2
      obtain ⟨it, ⟨_, hne⟩, hid⟩ := h2
      rw [← hid]
      simpa [hqid] using hne
  · intro h
    simp [cbf_recommend, h]

/-- C7 witness: a CBF query for an identifier absent from the catalog. -/
theorem cbf_unknown_notFound_witness :
    cbf_recommend coldSnap 99 10 = .error .notFound :=
  (cbf_excludes_query_unknown_notFound coldSnap 99 10).2 rfl

/-! ## Evaluation lemmas on the cold start example -/

theorem userSim_coldSnap : userSim coldSnap 1 2 = 0 := by
  have h : (sharedItems coldSnap 1 2).length < minOverlap := by decide
  unfold userSim
  rw [if_pos h]

theorem neighbors_coldSnap : neighbors coldSnap 1 = [] := by
  unfold neighbors
  have hf : coldSnap.users.filter
      (fun v => v != 1 && decide (0 < userSim coldSnap 1 v)) = [] := by
    have h1 : (((1:UserId) != 1) && decide (0 < userSim coldSnap 1 1)) = false := by
      simp
    have h2 : (((2:UserId) != 1) && decide (0 < userSim coldSnap 1 2)) = false := by
      simp [userSim_coldSnap]
    show List.filter _ [1, 2] = []
    rw [List.filter_cons, List.filter_cons, List.filter_nil]
    rw [h1, h2]
    simp
  rw [hf]
  rfl

/-- C6.  An unknown user, or a user with zero neighbors above the
similarity threshold, never makes cf_recommend signal an error: the result
is the Trending Ranker output flagged as a fallback. -/
theorem cf_cold_fallback (s : Snapshot) (u : UserId) (k : Nat)
    (h : u ∉ s.users ∨ neighbors s u = []) :
    cf_recommend s u k =
      { items := (trending s k).items, fallback := true, degraded := false } := by
  have hc : cfCold s u = true := by
    unfold cfCold
    rcases h with h | h <;> simp [h]
  simp [cf_recommend, hc]

/-- C6 witness: on the spec's example matrix the overlap of users 1 and 2
is a single item, below the threshold, so user 1 has no neighbors and CF
returns the trending fallback. -/
theorem cf_cold_fallback_witness :
    cf_recommend coldSnap 1 10 =
      { items := (trending coldSnap 10).items, fallback := true, degraded := false } :=
  cf_cold_fallback coldSnap 1 10 (Or.inr neighbors_coldSnap)

/-! ## Similarity lemmas -/

theorem sharedItems_comm (s : Snapshot) (u v : UserId) :
    sharedItems s u v = sharedItems s v u := by
  unfold sharedItems ratedItems
  rw [List.filter_filter, List.filter_filter]
  congr 1
  funext i
  exact Bool.and_comm _ _

theorem dotShared_comm (s : Snapshot) (u v : UserId) :
    dotShared s u v = dotShared s v u := by
  unfold dotShared
  rw [sharedItems_comm]
  congr 1
  apply List.map_congr_left
  intro i _
  ring

theorem normSqShared_swap (s : Snapshot) (u v w : UserId) :
    normSqShared s u v w = normSqShared s v u w := by
  unfold normSqShared
  rw [sharedItems_comm]

theorem normSqShared_nonneg (s : Snapshot) (u v w : UserId) :
    0 ≤ normSqShared s u v w := by
  apply List.sum_nonneg
  intro x hx
  simp only [List.mem_map] at hx
  obtain ⟨i, _, rfl⟩ := hx
  positivity

theorem dotShared_self (s : Snapshot) (u : UserId) :
    dotShared s u u = normSqShared s u u u := by
  unfold dotShared normSqShared
  congr 1
  apply List.map_congr_left
  intro i _
  ring

theorem sharedItems_self (s : Snapshot) (u : UserId) :
    sharedItems s u u = ratedItems s u := by
  unfold sharedItems
  apply List.filter_eq_self.2
  intro i hi
  unfold ratedItems at hi
  exact (List.mem_filter.1 hi).2

theorem userSim_comm (s : Snapshot) (u v : UserId) :
    userSim s u v = userSim s v u := by
  unfold userSim
  rw [sharedItems_comm s u v, dotShared_comm s u v, normSqShared_swap s u v u,
    normSqShared_swap s u v v]
  split_ifs <;> first | rfl | tauto | ring

theorem dotF_comm (a b : List ℚ) : dotF a b = dotF b a := by
  unfold dotF
  exact congrArg List.sum (List.zipWith_comm_of_comm _ (fun x y => by ring) _ _)

theorem dotF_self_nonneg (l : List ℚ) : 0 ≤ dotF l l := by
  unfold dotF
  rw [List.zipWith_same]
  apply List.sum_nonneg
  intro x hx
  simp only [List.mem_map] at hx
  obtain ⟨i, _, rfl⟩ := hx
  exact mul_self_nonneg i

theorem itemSim_comm (a b : Item) : itemSim a b = itemSim b a := by
  unfold itemSim
  rw [dotF_comm a.features b.features]
  split_ifs <;> first | rfl | tauto | ring

theorem normSq_oneRating : normSqShared oneRatingSnap 1 1 1 = 25 := by
  have hs : sharedItems oneRatingSnap 1 1 = [1] := by decide
  have hr : ratingD oneRatingSnap 1 1 = 5 := rfl
  unfold normSqShared
  rw [hs]
  simp [hr]
  norm_num

theorem normSq_twoRating : normSqShared twoRatingSnap 1 1 1 = 25 := by
  have hs : sharedItems twoRatingSnap 1 1 = [1, 2] := by decide
  have hr1 : ratingD twoRatingSnap 1 1 = 3 := rfl
  have hr2 : ratingD twoRatingSnap 1 2 = 4 := rfl
  unfold normSqShared
  rw [hs]
  simp [hr1, hr2]
  norm_num

/-- C4 counterexample.  The claim says the self similarity of an entity
with nonzero norm is 1 even under the minimum overlap rule.  A user who
rated exactly one item has a rating vector of nonzero norm, yet the self
overlap is 1, below the threshold of 2, so the overlap rule assigns self
similarity 0, not 1. -/
theorem userSim_self_overlap_zero :
    normSqShared oneRatingSnap 1 1 1 ≠ 0 ∧ userSim oneRatingSnap 1 1 = 0 := by
  constructor
  · rw [normSq_oneRating]
    norm_num
  · have h : (sharedItems oneRatingSnap 1 1).length < minOverlap := by decide
    unfold userSim
    rw [if_pos h]

/-- C4 (amended).  Similarity is symmetric for user pairs and item pairs;
self similarity of a user is 1 when the vector has nonzero norm AND the
self overlap meets the minimum threshold, and 0 when the overlap is below
threshold or the norm is zero; self similarity of an item is 1 exactly
when its feature vector has nonzero norm, else 0. -/
theorem similarity_symmetric (s : Snapshot) (u v : UserId) (a b : Item) :
    userSim s u v = userSim s v u ∧
    itemSim a b = itemSim b a ∧
    (minOverlap ≤ (ratedItems s u).length → normSqShared s u u u ≠ 0 →
      userSim s u u = 1) ∧
    ((ratedItems s u).length < minOverlap ∨ normSqShared s u u u = 0 →
      userSim s u u = 0) ∧
    (dotF a.features a.features ≠ 0 → itemSim a a = 1) ∧
    (dotF a.features a.features = 0 → itemSim a a = 0) := by
  refine ⟨userSim_comm s u v, itemSim_comm a b, ?_, ?_, ?_, ?_⟩
  · intro hlen hnz
    unfold userSim
    simp only [sharedItems_self, dotShared_self]
    rw [if_neg (not_lt.mpr hlen), if_neg (fun h => hnz (h.elim id id))]
    rw [Real.mul_self_sqrt (by exact_mod_cast normSqShared_nonneg s u u u)]
    exact div_self (by exact_mod_cast hnz)
  · intro h
    rcases h with h | h
    · unfold userSim
      simp only [sharedItems_self]
      rw [if_pos h]
    · unfold userSim
      split_ifs with h1 h2
      · rfl
      · rfl
      · exact absurd (Or.inl h) h2
  · intro hnz
    unfold itemSim
    rw [if_neg (fun h => hnz (h.elim id id))]
    rw [Real.mul_self_sqrt (by exact_mod_cast dotF_self_nonneg a.features)]
    exact div_self (by exact_mod_cast hnz)
  · intro h
    unfold itemSim
    rw [if_pos (Or.inl h)]

/-- C4 witness: a user with two rated items has self similarity 1. -/
theorem similarity_symmetric_witness : userSim twoRatingSnap 1 1 = 1 :=
  (similarity_symmetric twoRatingSnap 1 1 ⟨0, "", "", 0, 0, [], ""⟩
    ⟨0, "", "", 0, 0, [], ""⟩).2.2.1 (by decide)
    (by rw [normSq_twoRating]; norm_num)

/-! ## Min-max normalization lemmas -/

theorem foldl_min_le_init (l : List ℝ) (a : ℝ) : l.foldl min a ≤ a := by
  induction l generalizing a with
  | nil => exact le_refl a
  | cons b t ih =>
    simp only [List.foldl_cons]
    exact le_trans (ih (min a b)) (min_le_left a b)

theorem foldl_min_le_mem (l : List ℝ) (a v : ℝ) (h : v ∈ l) : l.foldl min a ≤ v := by
  induction l generalizing a with
  | nil => cases h
  | cons b t ih =>
    simp only [List.foldl_cons]
    rcases List.mem_cons.1 h with rfl | h
    · exact le_trans (foldl_min_le_init t (min a v)) (min_le_right a v)
    · exact ih (min a b) h

theorem init_le_foldl_max (l : List ℝ) (a : ℝ) : a ≤ l.foldl max a := by
  induction l generalizing a with
  | nil => exact le_refl a
  | cons b t ih =>
    simp only [List.foldl_cons]
    exact le_trans (le_max_left a b) (ih (max a b))

theorem mem_le_foldl_max (l : List ℝ) (a v : ℝ) (h : v ∈ l) : v ≤ l.foldl max a := by
  induction l generalizing a with
  | nil => cases h
  | cons b t ih =>
    simp only [List.foldl_cons]
    rcases List.mem_cons.1 h with rfl | h
    · exact le_trans (le_max_right a v) (init_le_foldl_max t (max a v))
    · exact ih (max a b) h

theorem loScore_le_mem {l : List (ItemId × ℝ)} {v : ℝ}
    (h : v ∈ l.map (fun p => p.2)) : loScore l ≤ v := by
  unfold loScore
  rcases hm : l.map (fun p => p.2) with _ | ⟨a, t⟩
  · rw [hm] at h; cases h
  · rw [hm] at h ⊢
    rcases List.mem_cons.1 h with rfl | h
    · exact foldl_min_le_init t v
    · exact foldl_min_le_mem t a v h

theorem mem_le_hiScore {l : List (ItemId × ℝ)} {v : ℝ}
    (h : v ∈ l.map (fun p => p.2)) : v ≤ hiScore l := by
  unfold hiScore
  rcases hm : l.map (fun p => p.2) with _ | ⟨a, t⟩
  · rw [hm] at h; cases h
  · rw [hm] at h ⊢
    rcases List.mem_cons.1 h with rfl | h
    · exact init_le_foldl_max t v
    · exact mem_le_foldl_max t a v h

theorem lookupScore_scoredOf {f : ItemId → ℝ} {ids : List ItemId} {i : ItemId}
    (h : i ∈ ids) : lookupScore i (scoredOf f ids) = some (f i) := by
  induction ids with
  | nil => cases h
  | cons x t ih =>
    by_cases hxi : x = i
    · subst hxi
      simp [lookupScore, scoredOf, List.find?_cons]
    · rcases List.mem_cons.1 h with rfl | h
      · exact absurd rfl hxi
      · have hb : ((x, f x).1 == i) = false := by simp [hxi]
        simp only [lookupScore, scoredOf, List.map_cons, List.find?_cons, hb]
        exact ih h

theorem scoredOf_score_mem {f : ItemId → ℝ} {ids : List ItemId} {i : ItemId}
    (h : i ∈ ids) : f i ∈ (scoredOf f ids).map (fun p => p.2) := by
  simp only [scoredOf, List.map_map, List.mem_map]
  exact ⟨i, h, rfl⟩

theorem minmaxNorm_scoredOf_mono {f : ItemId → ℝ} {ids : List ItemId} {a b : ItemId}
    (ha : a ∈ ids) (hb : b ∈ ids)
    (h : minmaxNorm (scoredOf f ids) b ≤ minmaxNorm (scoredOf f ids) a) :
    f b ≤ f a := by
  by_cases hc : hiScore (scoredOf f ids) = loScore (scoredOf f ids)
  · have h1 : f b ≤ hiScore (scoredOf f ids) := mem_le_hiScore (scoredOf_score_mem hb)
    have h2 : loScore (scoredOf f ids) ≤ f a := loScore_le_mem (scoredOf_score_mem ha)
    linarith
  · have ea : minmaxNorm (scoredOf f ids) a =
        (f a - loScore (scoredOf f ids)) /
          (hiScore (scoredOf f ids) - loScore (scoredOf f ids)) := by
      unfold minmaxNorm
      rw [if_neg hc, lookupScore_scoredOf ha]
    have eb : minmaxNorm (scoredOf f ids) b =
        (f b - loScore (scoredOf f ids)) /
          (hiScore (scoredOf f ids) - loScore (scoredOf f ids)) := by
      unfold minmaxNorm
      rw [if_neg hc, lookupScore_scoredOf hb]
    rw [ea, eb] at h
    have h1 : loScore (scoredOf f ids) ≤ f a := loScore_le_mem (scoredOf_score_mem ha)
    have h2 : f a ≤ hiScore (scoredOf f ids) := mem_le_hiScore (scoredOf_score_mem ha)
    have hpos : 0 < hiScore (scoredOf f ids) - loScore (scoredOf f ids) :=
      sub_pos.2 (lt_of_le_of_ne (le_trans h1 h2) (fun e => hc e.symm))
    have := (div_le_div_iff_of_pos_right hpos).1 h
    linarith

theorem hybridCombined_one (cfL cbfL : List (ItemId × ℝ)) (i : ItemId) :
    hybridCombined cfL cbfL 1 i = minmaxNorm cfL i := by
  unfold hybridCombined
  ring

theorem hybridCombined_zero (cfL cbfL : List (ItemId × ℝ)) (i : ItemId) :
    hybridCombined cfL cbfL 0 i = minmaxNorm cbfL i := by
  unfold hybridCombined
  ring

/-- Core of the hybrid extreme weight analysis: when the combined score
is monotone in a target scoring g over a selection of identifiers, the
hybrid result filtered to that selection never inverts g. -/
theorem hybrid_pairwise_core (s : Snapshot) (u : UserId) (q : ItemId) (k : Nat)
    (α : ℝ) (g : ItemId → ℝ) (sel : List ItemId)
    (hok : ¬(lookupItem s q = none ∧ u ∉ s.users))
    (hmono : ∀ a b : ItemId, a ∈ hybridUnion s u q → b ∈ hybridUnion s u q →
      a ∈ sel → b ∈ sel →
      hybridCombined (hybridCfL s u) (hybridCbfL s q) (hybridAEff s u q α) b ≤
        hybridCombined (hybridCfL s u) (hybridCbfL s q) (hybridAEff s u q α) a →
      g b ≤ g a) :
    ((resultItems (hybrid_recommend s u q k α)).filter
        (fun r => decide (r.item_id ∈ sel))).Pairwise
      (fun a b => g b.item_id ≤ g a.item_id) := by
  have hresult : resultItems (hybrid_recommend s u q k α) =
      rankList avgTie k (mkResults s (hybridScoredList s u q α)) := by
    unfold hybrid_recommend
    rw [if_neg hok]
    rfl
  rw [hresult]
  have hs : (rankList avgTie k (mkResults s (hybridScoredList s u q α))).Pairwise
      (rankLE avgTie) := (sortedCapped_rankList _ _ _).1
  have hp := hs.filter (fun r => decide (r.item_id ∈ sel))
  refine hp.imp_of_mem ?_
  intro a b ha hb hab
  obtain ⟨haL, hasel⟩ := List.mem_filter.1 ha
  obtain ⟨hbL, hbsel⟩ := List.mem_filter.1 hb
  have hma := mem_mkResults_scoredOf (mem_of_mem_rankList haL)
  have hmb := mem_mkResults_scoredOf (mem_of_mem_rankList hbL)
  have hscore : b.score ≤ a.score := by
    rcases hab with h | ⟨e, _⟩
    · exact h.le
    · exact e.symm.le
  rw [hma.2.1, hmb.2.1] at hscore
  exact hmono _ _ hma.1 hmb.1 (of_decide_eq_true hasel) (of_decide_eq_true hbsel) hscore

/-- C5 (amended).  On the non-degenerate path (known query item, user not
in CF cold start), the Hybrid Combiner with weight 1 never inverts the CF
predicted score among CF candidate items in its output, and with weight 0
never inverts the content similarity among CBF candidate items; the
combined score of each item in the candidate union is
alpha * normalized_CF + (1 - alpha) * normalized_CBF with a missing term
contributing 0.  (Equality with the exact CF or CBF rankings fails only at
ties, which the two engines break differently.) -/
theorem hybrid_extreme_weights (s : Snapshot) (u : UserId) (q : ItemId) (k : Nat)
    (hq : lookupItem s q ≠ none) (hcold : cfCold s u = false) :
    ((resultItems (hybrid_recommend s u q k 1)).filter
        (fun r => decide (r.item_id ∈ cfCandidates s u))).Pairwise
      (fun a b => cfPredicted s u b.item_id ≤ cfPredicted s u a.item_id) ∧
    ((resultItems (hybrid_recommend s u q k 0)).filter
        (fun r => decide (r.item_id ∈ cbfIds s q))).Pairwise
      (fun a b => cbfQuerySim s q b.item_id ≤ cbfQuerySim s q a.item_id) := by
  obtain ⟨qit, hqit⟩ := Option.ne_none_iff_exists'.1 hq
  constructor
  · refine hybrid_pairwise_core s u q k 1 (cfPredicted s u) (cfCandidates s u)
      (fun h => hq h.1) ?_
    intro a b _ _ ha hb h
    have ha1 : hybridAEff s u q 1 = 1 := by
      simp [hybridAEff, hcold, ite_self]
    rw [ha1, hybridCombined_one, hybridCombined_one] at h
    have hcf : hybridCfL s u = scoredOf (cfPredicted s u) (cfCandidates s u) := by
      simp [hybridCfL, hcold, cfScored]
    rw [hcf] at h
    exact minmaxNorm_scoredOf_mono ha hb h
  · refine hybrid_pairwise_core s u q k 0 (cbfQuerySim s q) (cbfIds s q)
      (fun h => hq h.1) ?_
    intro a b _ _ ha hb h
    have ha0 : hybridAEff s u q 0 = 0 := by
      simp [hybridAEff, hcold, hqit]
    rw [ha0, hybridCombined_zero, hybridCombined_zero] at h
    have hid : qit.item_id = q := lookupItem_id hqit
    have hcbf : hybridCbfL s q = scoredOf (cbfSimTo s qit) (cbfIds s q) := by
      simp [hybridCbfL, hqit, cbfScored, hid]
    rw [hcbf] at h
    have hsim : ∀ i : ItemId, cbfQuerySim s q i = cbfSimTo s qit i := by
      intro i
      simp [cbfQuerySim, hqit]
    rw [hsim, hsim]
    exact minmaxNorm_scoredOf_mono ha hb h

/-! ## Sort evaluation lemmas -/

theorem sortByRel_nil {α : Type} (r : α → α → Prop) : sortByRel r ([] : List α) = [] :=
  rfl

theorem sortByRel_cons {α : Type} (r : α → α → Prop) (a : α) (l : List α) :
    sortByRel r (a :: l) = insertByRel r a (sortByRel r l) :=
  rfl

theorem sortByRel_eq_of_sorted {α : Type} {r : α → α → Prop} {l : List α}
    (h : List.Sorted r l) : sortByRel r l = l :=
  @List.Sorted.insertionSort_eq α r (Classical.decRel r) l h

theorem insertByRel_nil {α : Type} (r : α → α → Prop) (a : α) :
    insertByRel r a [] = [a] :=
  rfl

theorem insertByRel_pos {α : Type} {r : α → α → Prop} {a b : α} (l : List α)
    (h : r a b) : insertByRel r a (b :: l) = a :: b :: l := by
  unfold insertByRel List.orderedInsert
  rw [if_pos h]

theorem insertByRel_neg {α : Type} {r : α → α → Prop} {a b : α} (l : List α)
    (h : ¬ r a b) : insertByRel r a (b :: l) = b :: insertByRel r a l := by
  unfold insertByRel
  simp only [List.orderedInsert]
  rw [if_neg h]

/-! ## Evaluation lemmas on the hybrid experiment snapshot -/

theorem userSim_hybridSnap : userSim hybridSnap 1 2 = 1 := by
  have hs : sharedItems hybridSnap 1 2 = [4, 5] := by decide
  have r14 : ratingD hybridSnap 1 4 = 5 := rfl
  have r15 : ratingD hybridSnap 1 5 = 5 := rfl
  have r24 : ratingD hybridSnap 2 4 = 5 := rfl
  have r25 : ratingD hybridSnap 2 5 = 5 := rfl
  have h1 : normSqShared hybridSnap 1 2 1 = 50 := by
    unfold normSqShared
    rw [hs]
    simp [r14, r15]
    norm_num
  have h2 : normSqShared hybridSnap 1 2 2 = 50 := by
    unfold normSqShared
    rw [hs]
    simp [r24, r25]
    norm_num
  have hd : dotShared hybridSnap 1 2 = 50 := by
    unfold dotShared
    rw [hs]
    simp [r14, r15, r24, r25]
    norm_num
  have hL : ¬ ((sharedItems hybridSnap 1 2).length < minOverlap) := by
    rw [hs]
    decide
  unfold userSim
  rw [if_neg hL, if_neg (by rw [h1, h2]; norm_num), hd, h1, h2]
  rw [show ((50 : ℚ) : ℝ) = 50 by norm_num]
  rw [Real.mul_self_sqrt (by norm_num : (0:ℝ) ≤ 50)]
  norm_num

theorem neighbors_hybridSnap : neighbors hybridSnap 1 = [2] := by
  unfold neighbors
  have hf : hybridSnap.users.filter
      (fun v => v != 1 && decide (0 < userSim hybridSnap 1 v)) = [2] := by
    have h1 : (((1:UserId) != 1) && decide (0 < userSim hybridSnap 1 1)) = false := by
      simp
    have h2 : (((2:UserId) != 1) && decide (0 < userSim hybridSnap 1 2)) = true := by
      simp [userSim_hybridSnap]
    show List.filter _ [1, 2] = [2]
    rw [List.filter_cons, List.filter_cons, List.filter_nil]
    rw [h1, h2]
    simp
  rw [hf]
  rfl

theorem cfCold_hybridSnap : cfCold hybridSnap 1 = false := by
  unfold cfCold
  rw [neighbors_hybridSnap]
  decide

theorem cfCandidates_hybridSnap : cfCandidates hybridSnap 1 = [1, 2, 3] := by
  unfold cfCandidates contributors
  simp only [neighbors_hybridSnap]
  decide

theorem contributors_hybridSnap_1 : contributors hybridSnap 1 1 = [2] := by
  unfold contributors
  rw [neighbors_hybridSnap]
  decide

theorem contributors_hybridSnap_2 : contributors hybridSnap 1 2 = [2] := by
  unfold contributors
  rw [neighbors_hybridSnap]
  decide

theorem contributors_hybridSnap_3 : contributors hybridSnap 1 3 = [2] := by
  unfold contributors
  rw [neighbors_hybridSnap]
  decide

theorem cfPredicted_hybridSnap_1 : cfPredicted hybridSnap 1 1 = 4 := by
  unfold cfPredicted
  rw [contributors_hybridSnap_1]
  have hr : ratingD hybridSnap 2 1 = 4 := rfl
  simp [userSim_hybridSnap, hr]

theorem cfPredicted_hybridSnap_2 : cfPredicted hybridSnap 1 2 = 4 := by
  unfold cfPredicted
  rw [contributors_hybridSnap_2]
  have hr : ratingD hybridSnap 2 2 = 4 := rfl
  simp [userSim_hybridSnap, hr]

theorem cfPredicted_hybridSnap_3 : cfPredicted hybridSnap 1 3 = 2 := by
  unfold cfPredicted
  rw [contributors_hybridSnap_3]
  have hr : ratingD hybridSnap 2 3 = 2 := rfl
  simp [userSim_hybridSnap, hr]

theorem cfScored_hybridSnap : cfScored hybridSnap 1 = [(1, 4), (2, 4), (3, 2)] := by
  unfold cfScored scoredOf
  rw [cfCandidates_hybridSnap]
  simp [cfPredicted_hybridSnap_1, cfPredicted_hybridSnap_2, cfPredicted_hybridSnap_3]

theorem mkResults_cf_hybridSnap :
    mkResults hybridSnap [(1, (4:ℝ)), (2, 4), (3, 2)] =
      [⟨1, "b1", "a", 1, 10, "c1", 4, none⟩, ⟨2, "b2", "a", 5, 5, "c2", 4, none⟩,
       ⟨3, "b3", "a", 1, 1, "c3", 2, none⟩] :=
  rfl

theorem rank_cf_hybridSnap :
    rankList rcTie 10
      [⟨1, "b1", "a", 1, 10, "c1", (4:ℝ), none⟩, ⟨2, "b2", "a", 5, 5, "c2", 4, none⟩,
       ⟨3, "b3", "a", 1, 1, "c3", 2, none⟩] =
      [⟨1, "b1", "a", 1, 10, "c1", 4, none⟩, ⟨2, "b2", "a", 5, 5, "c2", 4, none⟩,
       ⟨3, "b3", "a", 1, 1, "c3", 2, none⟩] := by
  unfold rankList
  rw [sortByRel_eq_of_sorted (by norm_num [List.sorted_cons, rankLE, rcTie])]
  rfl

theorem cf_items_hybridSnap :
    (cf_recommend hybridSnap 1 10).items =
      [⟨1, "b1", "a", 1, 10, "c1", (4:ℝ), none⟩, ⟨2, "b2", "a", 5, 5, "c2", 4, none⟩,
       ⟨3, "b3", "a", 1, 1, "c3", 2, none⟩] := by
  unfold cf_recommend
  rw [cfCold_hybridSnap]
  simp only [Bool.false_eq_true, if_false]
  rw [cfScored_hybridSnap, mkResults_cf_hybridSnap, rank_cf_hybridSnap]

theorem scoredOf_ids (f : ItemId → ℝ) (ids : List ItemId) :
    (scoredOf f ids).map (fun p => p.1) = ids := by
  simp only [scoredOf, List.map_map]
  show List.map (fun i => i) ids = ids
  exact List.map_id ids

theorem lookupItem_hybridSnap_4 :
    lookupItem hybridSnap 4 = some ⟨4, "b4", "a", 2, 1, [1], "c4"⟩ :=
  rfl

theorem hybridCfL_hybridSnap : hybridCfL hybridSnap 1 = [(1, (4:ℝ)), (2, 4), (3, 2)] := by
  unfold hybridCfL
  rw [cfCold_hybridSnap]
  simp only [Bool.false_eq_true, if_false]
  exact cfScored_hybridSnap

theorem hybridCbfL_ids_hybridSnap :
    (hybridCbfL hybridSnap 4).map (fun p => p.1) = [1, 2, 3, 5] := by
  unfold hybridCbfL
  rw [lookupItem_hybridSnap_4]
  unfold cbfScored
  rw [scoredOf_ids]
  decide

theorem hybridUnion_hybridSnap : hybridUnion hybridSnap 1 4 = [1, 2, 3, 5] := by
  unfold hybridUnion
  rw [hybridCfL_hybridSnap, hybridCbfL_ids_hybridSnap]
  rfl

theorem hybridAEff_one_hybridSnap : hybridAEff hybridSnap 1 4 1 = 1 := by
  unfold hybridAEff
  rw [cfCold_hybridSnap, lookupItem_hybridSnap_4]
  simp

theorem loScore_cfLit : loScore [(1, (4:ℝ)), (2, 4), (3, 2)] = 2 := by
  show List.foldl min (4:ℝ) [4, 2] = 2
  norm_num [List.foldl, min_def]

theorem hiScore_cfLit : hiScore [(1, (4:ℝ)), (2, 4), (3, 2)] = 4 := by
  show List.foldl max (4:ℝ) [4, 2] = 4
  norm_num [List.foldl, max_def]

theorem mm_cfLit_1 : minmaxNorm [(1, (4:ℝ)), (2, 4), (3, 2)] 1 = 1 := by
  unfold minmaxNorm
  rw [hiScore_cfLit, loScore_cfLit, if_neg (by norm_num : ¬(4:ℝ) = 2)]
  rw [show lookupScore 1 [(1, (4:ℝ)), (2, 4), (3, 2)] = some 4 from rfl]
  norm_num

theorem mm_cfLit_2 : minmaxNorm [(1, (4:ℝ)), (2, 4), (3, 2)] 2 = 1 := by
  unfold minmaxNorm
  rw [hiScore_cfLit, loScore_cfLit, if_neg (by norm_num : ¬(4:ℝ) = 2)]
  rw [show lookupScore 2 [(1, (4:ℝ)), (2, 4), (3, 2)] = some 4 from rfl]
  norm_num

theorem mm_cfLit_3 : minmaxNorm [(1, (4:ℝ)), (2, 4), (3, 2)] 3 = 0 := by
  unfold minmaxNorm
  rw [hiScore_cfLit, loScore_cfLit, if_neg (by norm_num : ¬(4:ℝ) = 2)]
  rw [show lookupScore 3 [(1, (4:ℝ)), (2, 4), (3, 2)] = some 2 from rfl]
  norm_num

theorem mm_cfLit_5 : minmaxNorm [(1, (4:ℝ)), (2, 4), (3, 2)] 5 = 0 := by
  unfold minmaxNorm
  rw [hiScore_cfLit, loScore_cfLit, if_neg (by norm_num : ¬(4:ℝ) = 2)]
  rw [show lookupScore 5 [(1, (4:ℝ)), (2, 4), (3, 2)] = none from rfl]

theorem hybridScoredList_hybridSnap :
    hybridScoredList hybridSnap 1 4 1 = [(1, (1:ℝ)), (2, 1), (3, 0), (5, 0)] := by
  unfold hybridScoredList
  rw [hybridUnion_hybridSnap, hybridAEff_one_hybridSnap, hybridCfL_hybridSnap]
  unfold scoredOf
  simp only [List.map_cons, List.map_nil, hybridCombined_one]
  rw [mm_cfLit_1, mm_cfLit_2, mm_cfLit_3, mm_cfLit_5]

theorem mkResults_hybrid_hybridSnap :
    mkResults hybridSnap [(1, (1:ℝ)), (2, 1), (3, 0), (5, 0)] =
      [⟨1, "b1", "a", 1, 10, "c1", 1, none⟩, ⟨2, "b2", "a", 5, 5, "c2", 1, none⟩,
       ⟨3, "b3", "a", 1, 1, "c3", 0, none⟩, ⟨5, "b5", "a", 0, 1, "c5", 0, none⟩] :=
  rfl

theorem rank_hybrid_hybridSnap :
    rankList avgTie 10
      [⟨1, "b1", "a", 1, 10, "c1", (1:ℝ), none⟩, ⟨2, "b2", "a", 5, 5, "c2", 1, none⟩,
       ⟨3, "b3", "a", 1, 1, "c3", 0, none⟩, ⟨5, "b5", "a", 0, 1, "c5", 0, none⟩] =
      [⟨2, "b2", "a", 5, 5, "c2", 1, none⟩, ⟨1, "b1", "a", 1, 10, "c1", 1, none⟩,
       ⟨3, "b3", "a", 1, 1, "c3", 0, none⟩, ⟨5, "b5", "a", 0, 1, "c5", 0, none⟩] := by
  unfold rankList
  rw [sortByRel_cons]
  rw [sortByRel_eq_of_sorted (by norm_num [List.sorted_cons, rankLE, avgTie])]
  rw [insertByRel_neg _ (by norm_num [rankLE, avgTie])]
  rw [insertByRel_pos _ (by norm_num [rankLE, avgTie])]
  rfl

theorem hybrid_items_hybridSnap :
    resultItems (hybrid_recommend hybridSnap 1 4 10 1) =
      [⟨2, "b2", "a", 5, 5, "c2", (1:ℝ), none⟩, ⟨1, "b1", "a", 1, 10, "c1", 1, none⟩,
       ⟨3, "b3", "a", 1, 1, "c3", 0, none⟩, ⟨5, "b5", "a", 0, 1, "c5", 0, none⟩] := by
  have hok : ¬(lookupItem hybridSnap 4 = none ∧ (1:UserId) ∉ hybridSnap.users) := by
    rw [lookupItem_hybridSnap_4]
    simp
  unfold hybrid_recommend
  rw [if_neg hok]
  simp only [resultItems]
  rw [hybridScoredList_hybridSnap, mkResults_hybrid_hybridSnap, rank_hybrid_hybridSnap]

/-- C5 counterexample.  On a concrete snapshot where CF candidates 1 and 2
tie on predicted score, the Hybrid Combiner with weight 1 orders them by
average rating (item 2 first) while the CF Engine orders them by review
count (item 1 first): the hybrid ranking restricted to the CF candidate
set is [2, 1, 3], the CF ranking is [1, 2, 3], so they differ. -/
theorem hybrid_one_ne_cf_ranking :
    ((resultItems (hybrid_recommend hybridSnap 1 4 10 1)).map
        (fun r => r.item_id)).filter
      (fun i => decide (i ∈ cfCandidates hybridSnap 1)) = [2, 1, 3] ∧
    (cf_recommend hybridSnap 1 10).items.map (fun r => r.item_id) = [1, 2, 3] ∧
    ((resultItems (hybrid_recommend hybridSnap 1 4 10 1)).map
        (fun r => r.item_id)).filter
      (fun i => decide (i ∈ cfCandidates hybridSnap 1)) ≠
      (cf_recommend hybridSnap 1 10).items.map (fun r => r.item_id) := by
  have h1 : ((resultItems (hybrid_recommend hybridSnap 1 4 10 1)).map
      (fun r => r.item_id)).filter
      (fun i => decide (i ∈ cfCandidates hybridSnap 1)) = [2, 1, 3] := by
    rw [hybrid_items_hybridSnap]
    simp only [cfCandidates_hybridSnap]
    decide
  have h2 : (cf_recommend hybridSnap 1 10).items.map (fun r => r.item_id) = [1, 2, 3] := by
    rw [cf_items_hybridSnap]
    rfl
  refine ⟨h1, h2, ?_⟩
  rw [h1, h2]
  decide

/-- C5 witness: the amended statement instantiated on the hybrid
experiment snapshot, whose query item is known and whose user is not
cold. -/
theorem hybrid_extreme_weights_witness :
    ((resultItems (hybrid_recommend hybridSnap 1 4 10 1)).filter
        (fun r => decide (r.item_id ∈ cfCandidates hybridSnap 1))).Pairwise
      (fun a b => cfPredicted hybridSnap 1 b.item_id ≤ cfPredicted hybridSnap 1 a.item_id) ∧
    ((resultItems (hybrid_recommend hybridSnap 1 4 10 0)).filter
        (fun r => decide (r.item_id ∈ cbfIds hybridSnap 4))).Pairwise
      (fun a b => cbfQuerySim hybridSnap 4 b.item_id ≤ cbfQuerySim hybridSnap 4 a.item_id) :=
  hybrid_extreme_weights hybridSnap 1 4 10 (by decide) cfCold_hybridSnap

end RecSys
